import Mathlib

/-
Verification of the kids-vocabulary client (catalog controller, expansion
merge, image-cache orchestration, speech fallback).

The definitions below are a shallow embedding of the TypeScript sources:
  - src/App.tsx            (two revisions: the v5 revision at the top of the
                            file is the primary one embedded here; the v9
                            revision differs only where noted)
  - src/services/geminiService.ts
  - src/unnamed/part_000   (an earlier geminiService revision)
  - src/unnamed/part_001   (an earlier App revision)

JavaScript builtins that the source relies on (JSON.parse, template-string
rendering of numbers, String.prototype.includes) are modelled by executable
Lean functions.  Asynchronous effects are modelled by passing an explicit
environment value describing the outcome of each remote call, and each
handler returns the successor state together with a trace of the externally
visible effects (remote calls, local speech invocations, alert popups).
-/

namespace KidsJoy

/-- Item record, from the fields used throughout App.tsx and
geminiService.ts (id, name, persianName, emoji, color). -/
structure Item where
  id : String
  name : String
  persianName : String
  emoji : String
  color : String
deriving Repr, DecidableEq

/-- Category record, from the fields used throughout App.tsx
(id, name, icon, color, items). -/
structure Category where
  id : String
  name : String
  icon : String
  color : String
  items : List Item
deriving Repr, DecidableEq

/-- A JavaScript JSON value, the result type of the JSON.parse builtin. -/
inductive JsValue where
  | null : JsValue
  | bool (b : Bool) : JsValue
  | num (n : Int) : JsValue
  | str (s : String) : JsValue
  | arr (elems : List JsValue) : JsValue
  | obj (fields : List (String × JsValue)) : JsValue
deriving Repr

/-- A thrown JavaScript exception, as observed by the catch blocks of the
controller: a parse failure thrown by JSON.parse, a TypeError thrown by a
bad property access or a bad method call, or an Error carrying a message
thrown by a remote call. -/
inductive JsError where
  | parseErr : JsError
  | typeErr : JsError
  | remoteErr (msg : String) : JsError
deriving Repr, DecidableEq

/-- Opening-brace character, written by code point to keep it out of
character literals. -/
def lbrace : Char := Char.ofNat 123

/-- Closing-brace character, written by code point. -/
def rbrace : Char := Char.ofNat 125

/-- JSON whitespace recognizer. -/
def isWs (c : Char) : Bool := c = ' ' || c = '\n' || c = '\t' || c = '\r'

/-- Drop leading JSON whitespace. -/
def skipWs : List Char → List Char
  | [] => []
  | c :: cs => if isWs c then skipWs cs else c :: cs

/-- Consume the body of a JSON string literal up to the closing quote.
Escape sequences are outside the modelled fragment (a backslash makes the
parse fail); no input used in this development contains one. -/
def parseStrChars : List Char → Option (List Char × List Char)
  | [] => none
  | c :: cs =>
    if c = '\"' then some ([], cs)
    else if c = '\\' then none
    else
      match parseStrChars cs with
      | some (acc, rest) => some (c :: acc, rest)
      | none => none

/-- Split a leading run of decimal digits from the input. -/
def takeDigits : List Char → List Char × List Char
  | [] => ([], [])
  | c :: cs =>
    if c.isDigit then
      let p := takeDigits cs
      (c :: p.1, p.2)
    else ([], c :: cs)

/-- Value of a list of decimal digit characters (most significant first). -/
def decodeDec (ds : List Char) : Nat :=
  ds.foldl (fun a c => a * 10 + (c.toNat - 48)) 0

/-- Consume an expected literal character sequence. -/
def dropLit : List Char → List Char → Option (List Char)
  | [], cs => some cs
  | _ :: _, [] => none
  | l :: ls, c :: cs => if c = l then dropLit ls cs else none

mutual

/-- Recursive-descent parser for a JSON value, modelling the JSON.parse
builtin on the fragment used by the program: null, booleans, integers,
strings without escapes, arrays and objects.  The fuel argument bounds the
recursion depth; the top-level wrapper supplies more fuel than any input of
the given length can consume. -/
def parseVal (fuel : Nat) (cs : List Char) : Option (JsValue × List Char) :=
  match fuel with
  | 0 => none
  | f + 1 =>
    match skipWs cs with
    | [] => none
    | c :: rest =>
      if c = 'n' then
        match dropLit [ 'u', 'l', 'l'] rest with
        | some r => some (JsValue.null, r)
        | none => none
      else if c = 't' then
        match dropLit [ 'r', 'u', 'e'] rest with
        | some r => some (JsValue.bool true, r)
        | none => none
      else if c = 'f' then
        match dropLit [ 'a', 'l', 's', 'e'] rest with
        | some r => some (JsValue.bool false, r)
        | none => none
      else if c = '\"' then
        match parseStrChars rest with
        | some (sc, r) => some (JsValue.str (String.mk sc), r)
        | none => none
      else if c = '[' then
        match skipWs rest with
        | ']' :: r => some (JsValue.arr [], r)
        | r1 =>
          match parseElems f r1 with
          | some (vs, r2) => some (JsValue.arr vs, r2)
          | none => none
      else if c = lbrace then
        match skipWs rest with
        | [] => none
        | r :: r2 =>
          if r = rbrace then some (JsValue.obj [], r2)
          else
            match parseFields f (r :: r2) with
            | some (fs, r3) => some (JsValue.obj fs, r3)
            | none => none
      else if c = '-' then
        match takeDigits rest with
        | ([], _) => none
        | (ds, r) => some (JsValue.num (-(decodeDec ds : Int)), r)
      else if c.isDigit then
        match takeDigits (c :: rest) with
        | (ds, r) => some (JsValue.num (decodeDec ds : Int), r)
      else none

/-- Comma-separated array elements, up to and including the closing
bracket. -/
def parseElems (fuel : Nat) (cs : List Char) : Option (List JsValue × List Char) :=
  match fuel with
  | 0 => none
  | f + 1 =>
    match parseVal f cs with
    | none => none
    | some (v, rest) =>
      match skipWs rest with
      | [] => none
      | c :: r2 =>
        if c = ',' then
          match parseElems f r2 with
          | some (vs, r3) => some (v :: vs, r3)
          | none => none
        else if c = ']' then some ([v], r2)
        else none

/-- Comma-separated object members, up to and including the closing
brace. -/
def parseFields (fuel : Nat) (cs : List Char) : Option (List (String × JsValue) × List Char) :=
  match fuel with
  | 0 => none
  | f + 1 =>
    match skipWs cs with
    | [] => none
    | c :: rest =>
      if c = '\"' then
        match parseStrChars rest with
        | none => none
        | some (kc, r2) =>
          match skipWs r2 with
          | [] => none
          | c2 :: r3 =>
            if c2 = ':' then
              match parseVal f r3 with
              | none => none
              | some (v, r4) =>
                match skipWs r4 with
                | [] => none
                | c3 :: r5 =>
                  if c3 = ',' then
                    match parseFields f r5 with
                    | some (fs, r6) => some ((String.mk kc, v) :: fs, r6)
                    | none => none
                  else if c3 = rbrace then some ([(String.mk kc, v)], r5)
                  else none
            else none
      else none

end

/-- The JSON.parse builtin: parse the whole string as one JSON value,
failing (throwing, at the JavaScript level) when the input is not valid
JSON of the modelled fragment. -/
def jsonParse (s : String) : Option JsValue :=
  match parseVal (s.length + 2) s.data with
  | some (v, rest) => if skipWs rest = [] then some v else none
  | none => none

/-- Property lookup on a JavaScript value (it.name and friends).  On an
object it is a member lookup; on every other non-null value it yields
undefined, modelled as none.  Property access on null throws; that case is
handled separately by the caller via isJsNull. -/
def getField (v : JsValue) (k : String) : Option JsValue :=
  match v with
  | JsValue.obj fs => (fs.find? (fun f => f.1 = k)).map (fun f => f.2)
  | _ => none

/-- Null test for a JavaScript value. -/
def isJsNull : JsValue → Bool
  | JsValue.null => true
  | _ => false

/-- String read of a property: the source stores it.name, it.persianName
and it.emoji straight into the new item.  A missing or non-string property
(JavaScript undefined / non-string) is modelled as the empty string; no
claim depends on that corner. -/
def fieldStr (v : JsValue) (k : String) : String :=
  match getField v k with
  | some (JsValue.str s) => s
  | _ => ""

/-- Decimal digit character for a value below ten. -/
def digitChar (n : Nat) : Char := Char.ofNat (48 + n)

/-- Decimal rendering of a natural number as a character list, modelling
how a JavaScript template literal renders an integral number.  The fuel
argument only bounds the recursion depth; any fuel above the number of
digits gives the rendering (the wrapper below passes n + 1). -/
def natToDecAux (fuel : Nat) (n : Nat) : List Char :=
  match fuel with
  | 0 => []
  | f + 1 =>
    if n < 10 then [digitChar n]
    else natToDecAux f (n / 10) ++ [digitChar (n % 10)]

/-- Decimal rendering of a natural number as a string. -/
def natToDec (n : Nat) : String := String.mk (natToDecAux (n + 1) n)

/-- Identifier minted for a freshly generated item, from
geminiService.expandCategoryItems: a template literal combining the word
dyn, the category name, Date.now() and the position in the batch,
separated by hyphens. -/
def mintId (categoryName : String) (now : Nat) (idx : Nat) : String :=
  "dyn-" ++ categoryName ++ "-" ++ natToDec now ++ "-" ++ natToDec idx

/-- Item built from one element of the parsed response array, from the map
step of expandCategoryItems.  Date.now() is evaluated once per element in
the source; the single now parameter models one reading of the clock, and
the identifier-distinctness results below do not depend on whether the
clock ticks inside the batch (see mintId_eq_iff). -/
def mintItem (categoryName : String) (now : Nat) (idx : Nat) (v : JsValue) : Item :=
  { id := mintId categoryName now idx
    name := fieldStr v "name"
    persianName := fieldStr v "persianName"
    emoji := fieldStr v "emoji"
    color := "bg-white" }

/-- Environment for one call to the content-expansion remote capability:
whether process.env.API_KEY is set (getClient throws when it is not),
the outcome of the generateContent call (a thrown error, or a response
whose text field may be absent), the Date.now() reading used for minting,
and whether window.aistudio exists (used only by the error handler). -/
structure ExpandEnv where
  hasApiKey : Bool
  response : Except JsError (Option String)
  now : Nat
  hasAiStudio : Bool
deriving Repr

/-- The line reading the response text in expandCategoryItems: an absent
text field, and the falsy empty string, fall back to the literal text of
an empty array. -/
def respTextOrFallback (respText : Option String) : String :=
  match respText with
  | none => "[]"
  | some t => if t = "" then "[]" else t

/-- The parse-and-map tail of expandCategoryItems: JSON.parse the response
text (throwing on invalid JSON), then data.map (throwing a TypeError when
data is not an array or an element is null, since accessing a property of
null throws), minting a fresh identifier for each element. -/
def parseBatch (categoryName : String) (now : Nat) (text : String) :
    Except JsError (List Item) :=
  match jsonParse text with
  | none => Except.error JsError.parseErr
  | some (JsValue.arr elems) =>
    if elems.any isJsNull then Except.error JsError.typeErr
    else Except.ok (elems.mapIdx (fun i v => mintItem categoryName now i v))
  | some _ => Except.error JsError.typeErr

/-- geminiService.expandCategoryItems.  Returns the thrown error or the
minted item list, together with the number of remote generation calls
actually issued.  Steps, mirroring the source: the existing item names are
joined into the prompt (observable only inside the prompt, kept as a dead
binding); getClient throws API_KEY_MISSING without a key, before any
remote call; the remote call itself may throw; then the response text is
parsed and mapped by parseBatch. -/
def expandCategoryItems (env : ExpandEnv) (categoryName : String)
    (existingItems : List Item) : Except JsError (List Item) × Nat :=
  let _ := existingItems.map (fun i => i.name)
  if env.hasApiKey = false then (Except.error (JsError.remoteErr ("API_KEY_MISSING")), 0)
  else
    match env.response with
    | Except.error e => (Except.error e, 1)
    | Except.ok respText =>
      (parseBatch categoryName env.now (respTextOrFallback respText), 1)

/-- Result of the catalog load: either the built-in default catalog
(INITIAL_CATEGORIES) or whatever value JSON.parse produced, which the
source returns without any validation. -/
inductive LoadResult where
  | defaultCatalog : LoadResult
  | parsed (v : JsValue) : LoadResult
deriving Repr

/-- The categories useState initializer of App.tsx: read the stored record
(none models a null localStorage.getItem result); a null or empty record
is falsy and yields INITIAL_CATEGORIES; otherwise the record is fed to
JSON.parse, whose failure is an uncaught thrown exception. -/
def loadCatalog (stored : Option String) : Except JsError LoadResult :=
  match stored with
  | none => Except.ok LoadResult.defaultCatalog
  | some s =>
    if s = "" then Except.ok LoadResult.defaultCatalog
    else
      match jsonParse s with
      | none => Except.error JsError.parseErr
      | some v => Except.ok (LoadResult.parsed v)

/-- Does the pattern occur as a prefix of the text (character lists)? -/
def leadsWith : List Char → List Char → Bool
  | [], _ => true
  | _ :: _, [] => false
  | p :: ps, c :: cs => p = c && leadsWith ps cs

/-- Does the pattern occur anywhere in the text (character lists)? -/
def occursIn (pat : List Char) : List Char → Bool
  | [] => leadsWith pat []
  | c :: cs => leadsWith pat (c :: cs) || occursIn pat cs

/-- The String.prototype.includes builtin used by handleApiError. -/
def strIncludes (s pat : String) : Bool := occursIn pat.data s.data

/-- The message property of a thrown JavaScript error, as inspected by
handleApiError.  For the two engine-raised exception kinds a
representative engine message is used; every engine wording for them
lacks all the substrings handleApiError tests for, so the classification
below is insensitive to the exact text. -/
def errMessage : JsError → String
  | JsError.parseErr => "Unexpected token in JSON"
  | JsError.typeErr => "data.map is not a function"
  | JsError.remoteErr msg => msg

/-- App.tsx handleApiError (v5 revision), reduced to its externally
visible effect: the number of alert popups shown (the credential-dialog
branches open the key selector instead of alerting when window.aistudio
exists). -/
def handleApiErrorAlerts (hasAiStudio : Bool) (e : JsError) : Nat :=
  let msg := errMessage e
  if strIncludes msg ("401") || strIncludes msg ("403") || strIncludes msg ("key") then
    if hasAiStudio then 0 else 1
  else 1

/-- The session and store state owned by the controller: the catalog, the
selected-category copy held in the navigation state, the learning index,
the localized-name toggle, the three busy flags, the transient item image,
and the persisted image store (association list, newest entry first, as
seen through get). -/
structure AppState where
  categories : List Category
  selectedCategory : Option Category
  learningIndex : Nat
  showPersian : Bool
  isSpeaking : Bool
  isExpanding : Bool
  isGeneratingImg : Bool
  itemImage : Option String
  imageCache : List (String × String)
deriving Repr, DecidableEq

/-- Externally visible effects of one handler invocation: remote
expansion calls, remote image-generation calls, remote speech-synthesis
attempts, the texts handed to the local speech fallback, and alert
popups. -/
structure Trace where
  expandRemoteCalls : Nat
  imageRemoteCalls : Nat
  speechRemoteAttempts : Nat
  localSpeechTexts : List String
  alerts : Nat
deriving Repr, DecidableEq

/-- The all-zero trace of a handler that did nothing observable. -/
def emptyTrace : Trace :=
  { expandRemoteCalls := 0
    imageRemoteCalls := 0
    speechRemoteAttempts := 0
    localSpeechTexts := []
    alerts := 0 }

/-- Write to the persisted image store (imageStorage.set): the new binding
shadows any previous one for the same key. -/
def storeSet (store : List (String × String)) (k v : String) : List (String × String) :=
  (k, v) :: store

/-- Outcome of one remote speech-synthesis attempt followed by playback:
the generateSpeech call throws (this includes the missing-key throw of
getClient and any network failure), returns no audio payload, or returns
audio whose playTTSSound playback succeeds or throws. -/
inductive SpeechEnv where
  | throws : SpeechEnv
  | noAudio : SpeechEnv
  | audio (playbackOk : Bool) : SpeechEnv
deriving Repr, DecidableEq

/-- Did the remote path fail to deliver audible speech (throw, no audio,
or playback failure)? -/
def speechRemoteFails : SpeechEnv → Bool
  | SpeechEnv.throws => true
  | SpeechEnv.noAudio => true
  | SpeechEnv.audio ok => !ok

/-- App.tsx handleSpeech (v5 revision).  Guard: an in-flight speak makes
the call return immediately.  Otherwise the speaking flag is set, the
remote synthesis is attempted inside an inner try whose catch only logs,
the played flag records whether remote audio was delivered and played, the
local fallback runs once for the same text when it was not, and the
finally block clears the speaking flag on every path. -/
def handleSpeech (s : AppState) (env : SpeechEnv) (text : String) : AppState × Trace :=
  if s.isSpeaking then (s, emptyTrace)
  else
    let played := match env with
      | SpeechEnv.throws => false
      | SpeechEnv.noAudio => false
      | SpeechEnv.audio ok => ok
    ({ s with isSpeaking := false },
     { emptyTrace with
        speechRemoteAttempts := 1
        localSpeechTexts := if played then [] else [text] })

/-- Environment for one call to the image-generation remote capability:
whether process.env.API_KEY is set, the outcome of generateItemImage (a
thrown error, no image part, or a data URL), and whether window.aistudio
exists. -/
structure ImageEnv where
  hasApiKey : Bool
  result : Except JsError (Option String)
  hasAiStudio : Bool
deriving Repr

/-- geminiService.generateItemImage: getClient throws without a key before
any remote call; otherwise the remote call either throws, returns a
response with no image part (undefined), or returns a data URL.  Paired
with the number of remote generation calls issued. -/
def generateItemImage (env : ImageEnv) : Except JsError (Option String) × Nat :=
  if env.hasApiKey = false then (Except.error (JsError.remoteErr ("API_KEY_MISSING")), 0)
  else
    match env.result with
    | Except.error e => (Except.error e, 1)
    | Except.ok r => (Except.ok r, 1)

/-- App.tsx handleImageGen (v5 revision).  The current item is the
learning-index entry of the selected category; the call returns
immediately when an image generation is in flight or there is no current
item.  Otherwise (after ensureApiKey, which only opens the key dialog) the
busy flag is set, generateItemImage is called, a returned URL is written
to the image store under the epoch-v5 key and shown, a thrown error goes
to handleApiError, and the finally block clears the flag on every path. -/
def handleImageGen (s : AppState) (env : ImageEnv) : AppState × Trace :=
  let item := s.selectedCategory.bind (fun c => c.items[s.learningIndex]?)
  if s.isGeneratingImg then (s, emptyTrace)
  else
    match item with
    | none => (s, emptyTrace)
    | some it =>
      match generateItemImage env with
      | (Except.error e, calls) =>
        ({ s with isGeneratingImg := false },
         { emptyTrace with
            imageRemoteCalls := calls
            alerts := handleApiErrorAlerts env.hasAiStudio e })
      | (Except.ok none, calls) =>
        ({ s with isGeneratingImg := false },
         { emptyTrace with imageRemoteCalls := calls })
      | (Except.ok (some url), calls) =>
        ({ s with
            isGeneratingImg := false
            imageCache := storeSet s.imageCache ("img_v5_" ++ it.id) url
            itemImage := some url },
         { emptyTrace with imageRemoteCalls := calls })

/-- App.tsx handleExpand (v5 revision).  The call returns immediately when
an expansion is in flight or no category is selected.  Otherwise (after
ensureApiKey) the busy flag is set and expandCategoryItems is called with
the selected-category copy held in the navigation state; a non-empty
result is appended to the matching category of the catalog (every other
category is passed through unchanged by the map), the selected-category
copy is refreshed from the updated catalog, an empty result changes
nothing, a thrown error goes to handleApiError, and the finally block
clears the flag on every path. -/
def handleExpand (s : AppState) (env : ExpandEnv) : AppState × Trace :=
  if s.isExpanding then (s, emptyTrace)
  else
    match s.selectedCategory with
    | none => (s, emptyTrace)
    | some sel =>
      match expandCategoryItems env sel.name sel.items with
      | (Except.error e, calls) =>
        ({ s with isExpanding := false },
         { emptyTrace with
            expandRemoteCalls := calls
            alerts := handleApiErrorAlerts env.hasAiStudio e })
      | (Except.ok newItems, calls) =>
        if newItems.length > 0 then
          let updated := s.categories.map (fun c =>
            if c.id = sel.id then { c with items := c.items ++ newItems } else c)
          let refreshed := (updated.find? (fun cat => cat.id = sel.id)).getD sel
          ({ s with
              categories := updated
              selectedCategory := some refreshed
              isExpanding := false },
           { emptyTrace with expandRemoteCalls := calls })
        else
          ({ s with isExpanding := false },
           { emptyTrace with expandRemoteCalls := calls })

/-- The category-picker click handler of the learning_detail view in the
v5 revision of App.tsx and in the part_001 revision: it replaces the
selected category and resets the learning index, and does nothing to the
localized-name toggle. -/
def selectCategoryV5 (s : AppState) (c : Category) : AppState :=
  { s with selectedCategory := some c, learningIndex := 0 }

/-- The category-picker click handler of the learning_detail view in the
v9 revision of App.tsx: it replaces the selected category, resets the
learning index and clears the localized-name toggle. -/
def selectCategoryV9 (s : AppState) (c : Category) : AppState :=
  { s with selectedCategory := some c, learningIndex := 0, showPersian := false }

/-- Sample catalog items used by the concrete instances below. -/
def appleItem : Item :=
  { id := "apple", name := "Apple", persianName := "sib", emoji := "A", color := "bg-red-100" }

/-- Second sample item. -/
def bananaItem : Item :=
  { id := "banana", name := "Banana", persianName := "moz", emoji := "B", color := "bg-yellow-100" }

/-- Sample category holding the two sample items. -/
def fruitsCat : Category :=
  { id := "fruits", name := "Fruits", icon := "F", color := "bg-red-400", items := [appleItem, bananaItem] }

/-- Second sample category. -/
def animalsCat : Category :=
  { id := "animals", name := "Animals", icon := "Z", color := "bg-green-400"
    items := [{ id := "cat", name := "Cat", persianName := "gorbe", emoji := "C", color := "bg-white" }] }

/-- Sample session state: learning_detail session on the fruits category
with no operation in flight. -/
def sampleState : AppState :=
  { categories := [fruitsCat, animalsCat]
    selectedCategory := some fruitsCat
    learningIndex := 0
    showPersian := false
    isSpeaking := false
    isExpanding := false
    isGeneratingImg := false
    itemImage := none
    imageCache := [] }

/- ------------------------------------------------------------------ -/
/- Helper lemmas                                                      -/
/- ------------------------------------------------------------------ -/

theorem digitChar_toNat {d : Nat} (h : d < 10) : (digitChar d).toNat = 48 + d := by
  interval_cases d <;> decide

theorem digitChar_isDigit {d : Nat} (h : d < 10) : (digitChar d).isDigit = true := by
  interval_cases d <;> decide

theorem decodeDec_append (l : List Char) (c : Char) :
    decodeDec (l ++ [c]) = decodeDec l * 10 + (c.toNat - 48) := by
  simp [decodeDec, List.foldl_append]

/-- With enough fuel the decimal rendering is a section of the digit-list
value, hence faithful. -/
theorem decodeDec_natToDecAux : ∀ (fuel n : Nat), n < fuel →
    decodeDec (natToDecAux fuel n) = n := by
  intro fuel
  induction fuel with
  | zero => intro n h; omega
  | succ f ih =>
    intro n hn
    rw [natToDecAux]
    by_cases h : n < 10
    · simp only [h, if_true]
      simp [decodeDec, digitChar_toNat h]
    · simp only [h, if_false]
      rw [decodeDec_append]
      have hdiv : n / 10 < n := Nat.div_lt_self (by omega) (by omega)
      rw [ih (n / 10) (by omega)]
      have hm := digitChar_toNat (d := n % 10) (by omega)
      omega

theorem natToDec_inj {m n : Nat}
    (h : natToDecAux (m + 1) m = natToDecAux (n + 1) n) : m = n := by
  have := congrArg decodeDec h
  rwa [decodeDec_natToDecAux (m + 1) m (by omega),
    decodeDec_natToDecAux (n + 1) n (by omega)] at this

theorem natToDecAux_isDigit : ∀ (fuel n : Nat), ∀ c ∈ natToDecAux fuel n, c.isDigit = true := by
  intro fuel
  induction fuel with
  | zero => intro n c hc; simp [natToDecAux] at hc
  | succ f ih =>
    intro n c hc
    rw [natToDecAux] at hc
    by_cases h : n < 10
    · simp only [h, if_true] at hc
      simp at hc
      subst hc
      exact digitChar_isDigit h
    · simp only [h, if_false] at hc
      rcases List.mem_append.mp hc with h1 | h2
      · exact ih (n / 10) c h1
      · simp at h2
        subst h2
        exact digitChar_isDigit (d := n % 10) (by omega)

theorem natToDecAux_no_hyphen (fuel n : Nat) : ∀ c ∈ natToDecAux fuel n, c ≠ '-' := by
  intro c hc heq
  have := natToDecAux_isDigit fuel n c hc
  subst heq
  simp at this

/-- Splitting at a separator character that occurs in neither left part is
unambiguous. -/
theorem sepSplit {sep : Char} :
    ∀ (a c b d : List Char), (∀ x ∈ a, x ≠ sep) → (∀ x ∈ c, x ≠ sep) →
      a ++ sep :: b = c ++ sep :: d → a = c ∧ b = d := by
  intro a
  induction a with
  | nil =>
    intro c b d _ hc h
    cases c with
    | nil => simpa using h
    | cons y ys =>
      simp at h
      exact absurd h.1.symm (hc y (by simp))
  | cons x xs ih =>
    intro c b d ha hc h
    cases c with
    | nil =>
      simp at h
      exact absurd h.1 (ha x (by simp))
    | cons y ys =>
      simp at h
      obtain ⟨hxy, ht⟩ := h
      have hr := ih ys b d (fun z hz => ha z (by simp [hz])) (fun z hz => hc z (by simp [hz])) ht
      exact ⟨by rw [hxy, hr.1], hr.2⟩

/-- Two minted identifiers for the same category coincide exactly when
both the timestamp and the batch position coincide.  In particular the
identifier does not depend on the category any more finely: distinct
positions always give distinct identifiers, and equal positions with equal
timestamps always collide. -/
theorem mintId_eq_iff (cat : String) (t1 i1 t2 i2 : Nat) :
    mintId cat t1 i1 = mintId cat t2 i2 ↔ (t1 = t2 ∧ i1 = i2) := by
  constructor
  · intro h
    have hd := congrArg String.data h
    have hdash : ("-" : String).data = ['-'] := rfl
    simp only [mintId, natToDec, String.data_append, hdash, List.append_assoc,
      List.singleton_append, List.cons_append, List.nil_append, List.cons.injEq,
      true_and, List.append_cancel_left_eq] at hd
    have hs := sepSplit (natToDecAux (t1 + 1) t1) (natToDecAux (t2 + 1) t2)
      (natToDecAux (i1 + 1) i1) (natToDecAux (i2 + 1) i2)
      (natToDecAux_no_hyphen (t1 + 1) t1) (natToDecAux_no_hyphen (t2 + 1) t2) hd
    exact ⟨natToDec_inj hs.1, natToDec_inj hs.2⟩
  · rintro ⟨rfl, rfl⟩
    rfl

theorem mintId_injective (cat : String) (now : Nat) : Function.Injective (mintId cat now) := by
  intro a b hab
  exact ((mintId_eq_iff cat now a now b).1 hab).2

/-- A successfully parsed batch carries pairwise distinct minted
identifiers: the identifier of position i is mintId at i, and mintId is
injective in the position. -/
theorem parseBatch_ids_nodup (cat : String) (now : Nat) (text : String) (items : List Item)
    (h : parseBatch cat now text = Except.ok items) : (items.map Item.id).Nodup := by
  unfold parseBatch at h
  split at h
  · simp at h
  · split at h
    · simp at h
    · simp only [Except.ok.injEq] at h
      subst h
      rw [List.mapIdx_eq_enum_map, List.map_map]
      have h2 : (Item.id ∘ Function.uncurry fun i v => mintItem cat now i v)
          = (mintId cat now) ∘ Prod.fst := rfl
      rw [h2, ← List.map_map, List.enum_map_fst]
      exact (List.nodup_range _).map (mintId_injective cat now)
  · simp at h

theorem expandCategoryItems_ids_nodup (env : ExpandEnv) (cat : String) (ex : List Item)
    (items : List Item) (h : (expandCategoryItems env cat ex).1 = Except.ok items) :
    (items.map Item.id).Nodup := by
  unfold expandCategoryItems at h
  split at h
  · simp at h
  · split at h
    · simp at h
    · exact parseBatch_ids_nodup cat env.now _ items h

/-- The two exception kinds parseBatch can raise are classified by
handleApiError into the generic alert branch, regardless of whether the
key-selection dialog is available. -/
theorem parseBatch_error_alerts (cat : String) (now : Nat) (text : String) (e : JsError)
    (b : Bool) (h : parseBatch cat now text = Except.error e) :
    handleApiErrorAlerts b e = 1 := by
  unfold parseBatch at h
  split at h
  · simp only [Except.error.injEq] at h
    subst h
    cases b <;> decide
  · split at h
    · simp only [Except.error.injEq] at h
      subst h
      cases b <;> decide
    · simp at h
  · simp only [Except.error.injEq] at h
    subst h
    cases b <;> decide

/- ------------------------------------------------------------------ -/
/- Further concrete instances used by counterexamples and witnesses   -/
/- ------------------------------------------------------------------ -/

/-- Session state with every busy flag set. -/
def busyState : AppState :=
  { sampleState with isSpeaking := true, isExpanding := true, isGeneratingImg := true }

/-- Session state with the localized-name toggle on. -/
def persianState : AppState := { sampleState with showPersian := true }

/-- Session state whose image store already holds an asset for the
current item (the key the v5 epoch derives for appleItem). -/
def cachedState : AppState := { sampleState with imageCache := [("img_v5_apple", "old")] }

/-- Image environment: key present, remote generation succeeds with a
data URL. -/
def sampleImageEnv : ImageEnv :=
  { hasApiKey := true, result := Except.ok (some ("data:image/png;base64,AAA")), hasAiStudio := true }

/-- Expansion environment whose response text is not valid JSON. -/
def badExpandEnv : ExpandEnv :=
  { hasApiKey := true, response := Except.ok (some ("not json")), now := 5, hasAiStudio := true }

/-- Expansion environment: one Cherry candidate, minted at a fixed
millisecond timestamp. -/
def expandEnvA : ExpandEnv :=
  { hasApiKey := true
    response := Except.ok (some ("[\x7b\"name\":\"Cherry\",\"persianName\":\"gilas\",\"emoji\":\"C\"\x7d]"))
    now := 1700000000000
    hasAiStudio := true }

/-- Expansion environment: one Plum candidate, minted in the same
millisecond as expandEnvA. -/
def expandEnvB : ExpandEnv :=
  { hasApiKey := true
    response := Except.ok (some ("[\x7b\"name\":\"Plum\",\"persianName\":\"alu\",\"emoji\":\"P\"\x7d]"))
    now := 1700000000000
    hasAiStudio := true }

/-- Expansion environment delivering a two-element batch at timestamp 99. -/
def c3WitnessEnv : ExpandEnv :=
  { hasApiKey := true
    response := Except.ok
      (some ("[\x7b\"name\":\"Cherry\",\"persianName\":\"gilas\",\"emoji\":\"C\"\x7d,\x7b\"name\":\"Plum\",\"persianName\":\"alu\",\"emoji\":\"P\"\x7d]"))
    now := 99
    hasAiStudio := true }

/-- The batch c3WitnessEnv produces. -/
def c3WitnessBatch : List Item :=
  [{ id := "dyn-Fruits-99-0", name := "Cherry", persianName := "gilas", emoji := "C", color := "bg-white" },
   { id := "dyn-Fruits-99-1", name := "Plum", persianName := "alu", emoji := "P", color := "bg-white" }]

/-- The batch expandEnvA produces against the sample catalog. -/
def c8NewItems : List Item :=
  [{ id := "dyn-Fruits-1700000000000-0", name := "Cherry", persianName := "gilas", emoji := "C", color := "bg-white" }]

/- ------------------------------------------------------------------ -/
/- Claim theorems                                                     -/
/- ------------------------------------------------------------------ -/

/-- C1: the catalog load does NOT recover from a corrupt stored record.
The claim states that any stored record that is not valid catalog data
yields the built-in default catalog without raising; in the code the
useState initializer only falls back when the record is absent (or empty,
which is falsy) and otherwise feeds the record to JSON.parse unguarded, so
a record that is not valid JSON makes the initializer throw.  Evaluated
here at the one-character record consisting of an opening brace. -/
theorem C1_corrupt_record_load_throws :
    loadCatalog (some ("\x7b")) = Except.error JsError.parseErr := rfl

/-- C2 (amended): the image-ensure operation never consults the Asset
Cache.  Whenever the busy flag is clear, a current item exists and the
API key is present, one remote generation call is issued; a second call
issued after the first completes issues another one (two in total); and
the emitted trace is independent of the image-store contents, showing the
store is not read on this path. -/
theorem C2_image_ensure_always_calls_remote (s : AppState) (env : ImageEnv) (it : Item)
    (cache : List (String × String))
    (hbusy : s.isGeneratingImg = false)
    (hitem : s.selectedCategory.bind (fun c => c.items[s.learningIndex]?) = some it)
    (hkey : env.hasApiKey = true) :
    (handleImageGen s env).2.imageRemoteCalls = 1 ∧
    (handleImageGen (handleImageGen s env).1 env).2.imageRemoteCalls = 1 ∧
    (handleImageGen { s with imageCache := cache } env).2 = (handleImageGen s env).2 := by
  rcases hr : env.result with e | u
  · have hg : generateItemImage env = (Except.error e, 1) := by
      simp [generateItemImage, hkey, hr]
    refine ⟨?_, ?_, ?_⟩ <;> simp [handleImageGen, hbusy, hitem, hg]
  · cases u with
    | none =>
      have hg : generateItemImage env = (Except.ok none, 1) := by
        simp [generateItemImage, hkey, hr]
      refine ⟨?_, ?_, ?_⟩ <;> simp [handleImageGen, hbusy, hitem, hg]
    | some url =>
      have hg : generateItemImage env = (Except.ok (some url), 1) := by
        simp [generateItemImage, hkey, hr]
      refine ⟨?_, ?_, ?_⟩ <;> simp [handleImageGen, hbusy, hitem, hg]

/-- C2 counterexample to the claim as stated: even when the Asset Cache
already holds an asset under the current item key, the image-ensure
operation still performs a remote generation call, and two successive
calls perform two remote calls in total, not one. -/
theorem C2_image_ensure_counterexample :
    (handleImageGen cachedState sampleImageEnv).2.imageRemoteCalls = 1 ∧
    ((handleImageGen cachedState sampleImageEnv).2.imageRemoteCalls +
      (handleImageGen (handleImageGen cachedState sampleImageEnv).1 sampleImageEnv).2.imageRemoteCalls) = 2 :=
  ⟨rfl, rfl⟩

/-- C2 witness: the amended theorem applied to the sample state, a
successful remote environment, the apple item and an arbitrary cache. -/
theorem C2_image_ensure_witness :
    (handleImageGen sampleState sampleImageEnv).2.imageRemoteCalls = 1 ∧
    (handleImageGen (handleImageGen sampleState sampleImageEnv).1 sampleImageEnv).2.imageRemoteCalls = 1 ∧
    (handleImageGen { sampleState with imageCache := [("a", "b")] } sampleImageEnv).2
      = (handleImageGen sampleState sampleImageEnv).2 :=
  C2_image_ensure_always_calls_remote sampleState sampleImageEnv appleItem
    [("a", "b")] rfl rfl rfl

/-- C3 (amended): within one expansion batch the freshly minted
identifiers are pairwise distinct (the position index is rendered into the
identifier and the rendering is injective); across two batches the
identifiers are distinct only when the Date.now readings differ, and two
batches minted in the same millisecond for the same category collide, as
the counterexample shows. -/
theorem C3_within_batch_ids_distinct (env : ExpandEnv) (cat : String) (ex items : List Item)
    (h : (expandCategoryItems env cat ex).1 = Except.ok items) :
    (items.map Item.id).Nodup :=
  expandCategoryItems_ids_nodup env cat ex items h

/-- C3 counterexample to the claim as stated: two expansion calls on the
same category whose identifier-minting steps fall in the same millisecond
(Date.now renders the same value) mint the same identifier in both
batches, so the identifiers across the two batches are not pairwise
distinct. -/
theorem C3_same_millisecond_counterexample :
    ((expandCategoryItems expandEnvA ("Fruits") fruitsCat.items).1.toOption.map
        (fun l => l.map Item.id)) = some [("dyn-Fruits-1700000000000-0")] ∧
    ((expandCategoryItems expandEnvB ("Fruits") fruitsCat.items).1.toOption.map
        (fun l => l.map Item.id)) = some [("dyn-Fruits-1700000000000-0")] :=
  ⟨rfl, rfl⟩

/-- C3 witness: a concrete two-element batch whose identifiers are
pairwise distinct. -/
theorem C3_ids_witness :
    (expandCategoryItems c3WitnessEnv ("Fruits") []).1 = Except.ok c3WitnessBatch ∧
    (c3WitnessBatch.map Item.id).Nodup :=
  ⟨rfl, C3_within_batch_ids_distinct c3WitnessEnv ("Fruits") [] c3WitnessBatch rfl⟩

/-- C4 (amended): a malformed or non-array response text is NOT treated
as zero new items.  The catalog is indeed left unchanged and the busy
flag is released, but the JSON.parse failure (or the TypeError of mapping
a non-array) propagates to the catch block, which classifies it into the
generic branch and shows exactly one alert: a user-facing error
notification is produced. -/
theorem C4_malformed_response_alerts (s : AppState) (sel : Category) (env : ExpandEnv)
    (respText : Option String) (e : JsError)
    (hbusy : s.isExpanding = false) (hsel : s.selectedCategory = some sel)
    (hkey : env.hasApiKey = true) (hresp : env.response = Except.ok respText)
    (hbad : parseBatch sel.name env.now (respTextOrFallback respText) = Except.error e) :
    (handleExpand s env).1.categories = s.categories ∧
    (handleExpand s env).2.alerts = 1 ∧
    (handleExpand s env).1.isExpanding = false := by
  have hE : expandCategoryItems env sel.name sel.items = (Except.error e, 1) := by
    simp [expandCategoryItems, hkey, hresp, hbad]
  have halert := parseBatch_error_alerts sel.name env.now _ e env.hasAiStudio hbad
  refine ⟨?_, ?_, ?_⟩ <;> simp [handleExpand, hbusy, hsel, hE, halert]

/-- C4 counterexample to the claim as stated: a response text that is not
JSON leaves the catalog unchanged but produces one alert, contradicting
that no user-facing error notification is produced. -/
theorem C4_malformed_counterexample :
    (handleExpand sampleState badExpandEnv).2.alerts = 1 ∧
    (handleExpand sampleState badExpandEnv).1.categories = sampleState.categories :=
  ⟨rfl, rfl⟩

/-- C4 witness: the amended theorem applied to the sample state and the
non-JSON response environment. -/
theorem C4_malformed_witness :
    (handleExpand sampleState badExpandEnv).1.categories = sampleState.categories ∧
    (handleExpand sampleState badExpandEnv).2.alerts = 1 ∧
    (handleExpand sampleState badExpandEnv).1.isExpanding = false :=
  C4_malformed_response_alerts sampleState fruitsCat badExpandEnv (some ("not json"))
    JsError.parseErr rfl rfl rfl rfl rfl

/-- C5: speech fallback determinism.  When no speak is in flight, the
remote synthesis is attempted exactly once; if the remote path fails
(throw, no audio, or playback failure) the local fallback is invoked
exactly once with the same text and there is no second remote attempt; if
the remote path succeeds the local fallback is not invoked. -/
theorem C5_speech_fallback_determinism (s : AppState) (env : SpeechEnv) (t : String)
    (hbusy : s.isSpeaking = false) :
    (speechRemoteFails env = true →
      (handleSpeech s env t).2.localSpeechTexts = [t] ∧
      (handleSpeech s env t).2.speechRemoteAttempts = 1) ∧
    (speechRemoteFails env = false →
      (handleSpeech s env t).2.localSpeechTexts = [] ∧
      (handleSpeech s env t).2.speechRemoteAttempts = 1) := by
  cases env with
  | throws => simp [handleSpeech, hbusy, speechRemoteFails]
  | noAudio => simp [handleSpeech, hbusy, speechRemoteFails]
  | audio ok => cases ok <;> simp [handleSpeech, hbusy, speechRemoteFails]

/-- C5 witness: a throwing remote environment yields exactly one local
invocation with the same text and one remote attempt; a fully successful
environment yields no local invocation. -/
theorem C5_speech_witness :
    (handleSpeech sampleState SpeechEnv.throws ("Apple")).2.localSpeechTexts = ["Apple"] ∧
    (handleSpeech sampleState SpeechEnv.throws ("Apple")).2.speechRemoteAttempts = 1 ∧
    (handleSpeech sampleState (SpeechEnv.audio true) ("Apple")).2.localSpeechTexts = [] :=
  ⟨((C5_speech_fallback_determinism sampleState SpeechEnv.throws ("Apple") rfl).1 rfl).1,
   ((C5_speech_fallback_determinism sampleState SpeechEnv.throws ("Apple") rfl).1 rfl).2,
   ((C5_speech_fallback_determinism sampleState (SpeechEnv.audio true) ("Apple") rfl).2 rfl).1⟩

/-- C6: single-flight guarantee.  When the corresponding busy flag is
set, each of the three operations returns the state completely unchanged
(catalog, cache and all flags included) with an empty effect trace, so no
remote capability is invoked. -/
theorem C6_single_flight_noop (s : AppState) (senv : SpeechEnv) (ienv : ImageEnv)
    (eenv : ExpandEnv) (t : String) :
    (s.isSpeaking = true → handleSpeech s senv t = (s, emptyTrace)) ∧
    (s.isGeneratingImg = true → handleImageGen s ienv = (s, emptyTrace)) ∧
    (s.isExpanding = true → handleExpand s eenv = (s, emptyTrace)) := by
  refine ⟨fun h => ?_, fun h => ?_, fun h => ?_⟩ <;>
    simp [handleSpeech, handleImageGen, handleExpand, h]

/-- C6 witness: the no-op behaviour at a state with all flags set. -/
theorem C6_single_flight_witness :
    handleSpeech busyState SpeechEnv.throws ("Apple") = (busyState, emptyTrace) ∧
    handleImageGen busyState sampleImageEnv = (busyState, emptyTrace) ∧
    handleExpand busyState badExpandEnv = (busyState, emptyTrace) :=
  ⟨(C6_single_flight_noop busyState SpeechEnv.throws sampleImageEnv badExpandEnv ("Apple")).1 rfl,
   (C6_single_flight_noop busyState SpeechEnv.throws sampleImageEnv badExpandEnv ("Apple")).2.1 rfl,
   (C6_single_flight_noop busyState SpeechEnv.throws sampleImageEnv badExpandEnv ("Apple")).2.2 rfl⟩

/-- C7: every execution that begins with the operation's busy flag clear
finishes with it clear again, for every possible environment outcome
(success, expected failure, or a thrown exception): the finally blocks
release the flags on all paths. -/
theorem C7_busy_flag_released (s : AppState) (senv : SpeechEnv) (ienv : ImageEnv)
    (eenv : ExpandEnv) (t : String) :
    (s.isSpeaking = false → (handleSpeech s senv t).1.isSpeaking = false) ∧
    (s.isGeneratingImg = false → (handleImageGen s ienv).1.isGeneratingImg = false) ∧
    (s.isExpanding = false → (handleExpand s eenv).1.isExpanding = false) := by
  refine ⟨fun h => ?_, fun h => ?_, fun h => ?_⟩
  · simp [handleSpeech, h]
  · cases hI : s.selectedCategory.bind (fun c => c.items[s.learningIndex]?) with
    | none => simp [handleImageGen, h, hI]
    | some it =>
      rcases hG : generateItemImage ienv with ⟨r, calls⟩
      cases r with
      | error e => simp [handleImageGen, h, hI, hG]
      | ok u => cases u <;> simp [handleImageGen, h, hI, hG]
  · cases hS : s.selectedCategory with
    | none => simp [handleExpand, h, hS]
    | some sel =>
      rcases hE : expandCategoryItems eenv sel.name sel.items with ⟨r, calls⟩
      cases r with
      | error e => simp [handleExpand, h, hS, hE]
      | ok items =>
        by_cases hlen : items.length > 0
        · simp [handleExpand, h, hS, hE, hlen]
        · simp [handleExpand, h, hS, hE, hlen]

/-- C7 witness: the three releases at the sample state, under a throwing
speech environment, a successful image environment and a malformed
expansion environment. -/
theorem C7_busy_flag_witness :
    (handleSpeech sampleState SpeechEnv.throws ("Apple")).1.isSpeaking = false ∧
    (handleImageGen sampleState sampleImageEnv).1.isGeneratingImg = false ∧
    (handleExpand sampleState badExpandEnv).1.isExpanding = false :=
  ⟨(C7_busy_flag_released sampleState SpeechEnv.throws sampleImageEnv badExpandEnv ("Apple")).1 rfl,
   (C7_busy_flag_released sampleState SpeechEnv.throws sampleImageEnv badExpandEnv ("Apple")).2.1 rfl,
   (C7_busy_flag_released sampleState SpeechEnv.throws sampleImageEnv badExpandEnv ("Apple")).2.2 rfl⟩

/-- C8: append-only merge.  For a successful non-empty expansion, the
category at any catalog position whose identifier matches the selected
category becomes exactly its old record with the new items appended after
the unchanged old sequence, the catalog length is preserved, the old
sequence is the prefix of the new one, and the new length is the sum. -/
theorem C8_append_only_merge (s : AppState) (env : ExpandEnv) (sel c : Category)
    (newItems : List Item) (i : Nat)
    (hbusy : s.isExpanding = false) (hsel : s.selectedCategory = some sel)
    (hexp : (expandCategoryItems env sel.name sel.items).1 = Except.ok newItems)
    (hne : newItems ≠ [])
    (hc : s.categories[i]? = some c) (hid : c.id = sel.id) :
    (handleExpand s env).1.categories.length = s.categories.length ∧
    (handleExpand s env).1.categories[i]? = some { c with items := c.items ++ newItems } ∧
    (c.items ++ newItems).take c.items.length = c.items ∧
    (c.items ++ newItems).length = c.items.length + newItems.length := by
  rcases hE : expandCategoryItems env sel.name sel.items with ⟨r, calls⟩
  rw [hE] at hexp
  simp at hexp
  subst hexp
  have hlen : newItems.length > 0 := List.length_pos.mpr hne
  refine ⟨?_, ?_, List.take_left _ _, List.length_append _ _⟩
  · simp [handleExpand, hbusy, hsel, hE, hlen]
  · simp [handleExpand, hbusy, hsel, hE, hlen, List.getElem?_map, hc, hid]

/-- C8 witness: expanding the sample catalog with a one-element batch
appends it to the fruits category. -/
theorem C8_append_only_witness :
    (handleExpand sampleState expandEnvA).1.categories.length = sampleState.categories.length ∧
    (handleExpand sampleState expandEnvA).1.categories[0]? =
      some { fruitsCat with items := fruitsCat.items ++ c8NewItems } ∧
    (fruitsCat.items ++ c8NewItems).take fruitsCat.items.length = fruitsCat.items ∧
    (fruitsCat.items ++ c8NewItems).length = fruitsCat.items.length + c8NewItems.length :=
  C8_append_only_merge sampleState expandEnvA fruitsCat fruitsCat c8NewItems 0
    rfl rfl rfl (by decide) rfl rfl

/-- C9 (amended): switching the selected category from the
learning_detail picker resets the item index to 0 and replaces the
selected category in every revision; the v9 revision of the picker also
clears the localized-name toggle, while the v5 and part_001 revisions
leave the toggle unchanged. -/
theorem C9_select_category_resets (s : AppState) (c : Category) :
    (selectCategoryV5 s c).learningIndex = 0 ∧
    (selectCategoryV5 s c).selectedCategory = some c ∧
    (selectCategoryV5 s c).showPersian = s.showPersian ∧
    (selectCategoryV9 s c).learningIndex = 0 ∧
    (selectCategoryV9 s c).selectedCategory = some c ∧
    (selectCategoryV9 s c).showPersian = false :=
  ⟨rfl, rfl, rfl, rfl, rfl, rfl⟩

/-- C9 counterexample to the claim as stated: in the v5 picker, switching
category while the localized-name toggle is on does not clear it. -/
theorem C9_select_category_counterexample :
    ¬ ((selectCategoryV5 persianState animalsCat).showPersian = false) := by decide

/-- C10: frame effect of a successful expansion.  Every catalog position
holding a category whose identifier differs from the selected one is left
with the identical category record (identifier, name, glyph, color and
item sequence), and the catalog length, hence the order of positions, is
preserved.  This also covers the empty-batch case, where nothing at all
changes. -/
theorem C10_other_categories_unchanged (s : AppState) (env : ExpandEnv) (sel c : Category)
    (newItems : List Item) (i : Nat)
    (hbusy : s.isExpanding = false) (hsel : s.selectedCategory = some sel)
    (hexp : (expandCategoryItems env sel.name sel.items).1 = Except.ok newItems)
    (hc : s.categories[i]? = some c) (hid : c.id ≠ sel.id) :
    (handleExpand s env).1.categories.length = s.categories.length ∧
    (handleExpand s env).1.categories[i]? = some c := by
  rcases hE : expandCategoryItems env sel.name sel.items with ⟨r, calls⟩
  rw [hE] at hexp
  simp at hexp
  subst hexp
  by_cases hlen : newItems.length > 0
  · refine ⟨?_, ?_⟩
    · simp [handleExpand, hbusy, hsel, hE, hlen]
    · simp [handleExpand, hbusy, hsel, hE, hlen, List.getElem?_map, hc, hid]
  · refine ⟨?_, ?_⟩
    · simp [handleExpand, hbusy, hsel, hE, hlen]
    · simp [handleExpand, hbusy, hsel, hE, hlen, hc]

/-- C10 witness: after expanding the fruits category of the sample
catalog, the animals category at position 1 is unchanged. -/
theorem C10_frame_witness :
    (handleExpand sampleState expandEnvA).1.categories.length = sampleState.categories.length ∧
    (handleExpand sampleState expandEnvA).1.categories[1]? = some animalsCat :=
  C10_other_categories_unchanged sampleState expandEnvA fruitsCat animalsCat c8NewItems 1
    rfl rfl rfl rfl (by decide)

end KidsJoy
